import Mathlib

/-!
Verification of `tools/train_net.py` (d2go detection training script).

The orchestration core is embedded shallowly: the injected collaborators
(runner, checkpointer, process wrapper) are capability records, side
effects are recorded in an explicit event trace, and `main` /
`run_with_cmdline_args` are translated line by line from the source.
-/

namespace TrainNet

/-- The configuration fields `main` reads: `cfg.MODEL.WEIGHTS`,
`cfg.MODEL.DEVICE`, `cfg.MODEL.DDP_FP16_GRAD_COMPRESS`,
`cfg.MODEL.DDP_FIND_UNUSED_PARAMETERS`, `cfg.OUTPUT_DIR`. -/
structure Cfg where
  modelWeights : String
  modelDevice : String
  ddpFp16GradCompress : Bool
  ddpFindUnusedParameters : Bool
  outputDir : String
deriving DecidableEq

/-- A model instance built by the runner; `training` records the
train/eval mode toggled by `model.eval()`. -/
structure Model where
  modelId : Nat
  training : Bool
deriving DecidableEq

/-- `model.eval()`: puts the model in inference mode. -/
def Model.eval (m : Model) : Model :=
  { m with training := false }

/-- The DDP wrapper produced by `create_ddp_model` (detectron2, an external
collaborator): it is modelled as recording the wrapped module together with
the configuration `main` passes to it. -/
structure DDPModel where
  module : Model
  fp16_compression : Bool
  device_ids : Option (List Nat)
  broadcast_buffers : Bool
  find_unused_parameters : Bool
deriving DecidableEq

/-- `create_ddp_model(model, fp16_compression=..., device_ids=...,
broadcast_buffers=..., find_unused_parameters=...)`. -/
def create_ddp_model (model : Model) (fp16_compression : Bool)
    (device_ids : Option (List Nat)) (broadcast_buffers : Bool)
    (find_unused_parameters : Bool) : DDPModel :=
  { module := model
    fp16_compression := fp16_compression
    device_ids := device_ids
    broadcast_buffers := broadcast_buffers
    find_unused_parameters := find_unused_parameters }

/-- The model value handed to the runner: either the plain built model
(eval-only path) or the DDP-wrapped model (train path). -/
inductive RModel
  | plain (m : Model)
  | ddp (m : DDPModel)
deriving DecidableEq

/-- A metrics report: mapping from metric name to value. -/
abbrev MetricsReport : Type := List (String × Nat)

/-- A `CheckpointRecord` as returned by `checkpointer.load` /
`checkpointer.resume_or_load`; `iteration = none` models a record dict
without an `iteration` key, so that `checkpoint.get("iteration", None)`
is `iteration` itself. -/
structure CheckpointRecord where
  weightsReference : String
  iteration : Option Nat
  auxiliaryState : Option String
deriving DecidableEq

/-- The checkpointer capability built by `runner.build_checkpointer`. -/
structure Checkpointer where
  has_checkpoint : Bool
  resume_or_load : String → Bool → CheckpointRecord
  load : String → CheckpointRecord

/-- The runner capability injected into `main`. -/
structure Runner where
  build_model : Cfg → Model
  build_checkpointer : Cfg → Model → String → Checkpointer
  do_train : Cfg → RModel → Bool → List (String × String)
  do_test : Cfg → RModel → Option Nat → MetricsReport

/-- Observable calls `main` makes, in program order. -/
inductive Event
  | setupAfterLaunch
  | buildModel
  | buildCheckpointer (save_dir : String)
  | resumeOrLoad (weights : String) (resume : Bool)
  | load (weights : String)
  | modelEval
  | doTest (m : RModel) (train_iter : Option Nat)
  | printMetricsTable
  | createDdpModel (fp16 : Bool) (deviceIds : Option (List Nat))
      (broadcastBuffers : Bool) (findUnused : Bool)
  | doTrain (m : RModel) (resume : Bool)
  | dumpTrainedModelConfigs (outputDir : String)
deriving DecidableEq

def Event.isDoTrain : Event → Bool
  | .doTrain _ _ => true
  | _ => false

def Event.isDoTest : Event → Bool
  | .doTest _ _ => true
  | _ => false

def Event.isResumeOrLoad : Event → Bool
  | .resumeOrLoad _ _ => true
  | _ => false

def Event.isLoad : Event → Bool
  | .load _ => true
  | _ => false

def Event.isCreateDdpModel : Event → Bool
  | .createDdpModel _ _ _ _ => true
  | _ => false

/-- The dictionary returned by `main`. -/
structure RunResult where
  accuracy : MetricsReport
  model_configs : List (String × String)
  metrics : MetricsReport
deriving DecidableEq

/-- Modelled from the spec: `dump_trained_model_configs` lives in
`d2go.utils.misc`, which is not under `src/`; per the spec the mapping
from logical name to config artifact is produced by dumping each trained
sub-model's config to the output directory, one entry per logical name. -/
def dump_trained_model_configs (output_dir : String)
    (trained_cfgs : List (String × String)) : List (String × String) :=
  trained_cfgs.map (fun p => (p.1, output_dir ++ "/" ++ p.1 ++ ".yaml"))

/-- `main(cfg, output_dir, runner, eval_only, resume)` from
`tools/train_net.py`, returning the result dictionary together with the
trace of collaborator calls. `localRank` stands for the ambient
`comm.get_local_rank()` of the calling worker process. -/
def main (cfg : Cfg) (output_dir : String) (runner : Runner) (localRank : Nat)
    (eval_only : Bool := false) (resume : Bool := true) :
    RunResult × List Event :=
  let model := runner.build_model cfg
  if eval_only then
    let checkpointer := runner.build_checkpointer cfg model output_dir
    let loaded :=
      if resume && checkpointer.has_checkpoint then
        (checkpointer.resume_or_load cfg.modelWeights resume,
         [Event.resumeOrLoad cfg.modelWeights resume])
      else
        (checkpointer.load cfg.modelWeights,
         [Event.load cfg.modelWeights])
    let checkpoint := loaded.1
    let train_iter := checkpoint.iteration
    let model := Model.eval model
    let metrics := runner.do_test cfg (RModel.plain model) train_iter
    ({ accuracy := metrics, model_configs := [], metrics := metrics },
     [Event.setupAfterLaunch, Event.buildModel,
      Event.buildCheckpointer output_dir] ++ loaded.2 ++
     [Event.modelEval, Event.doTest (RModel.plain model) train_iter,
      Event.printMetricsTable])
  else
    let device_ids : Option (List Nat) :=
      if cfg.modelDevice = "cpu" then none else some [localRank]
    let ddp := create_ddp_model model cfg.ddpFp16GradCompress device_ids
      false cfg.ddpFindUnusedParameters
    let wrapped := RModel.ddp ddp
    let trained_cfgs := runner.do_train cfg wrapped resume
    let metrics := runner.do_test cfg wrapped none
    let trained_model_configs :=
      dump_trained_model_configs cfg.outputDir trained_cfgs
    ({ accuracy := metrics, model_configs := trained_model_configs,
       metrics := metrics },
     [Event.setupAfterLaunch, Event.buildModel,
      Event.createDdpModel cfg.ddpFp16GradCompress device_ids false
        cfg.ddpFindUnusedParameters,
      Event.doTrain wrapped resume, Event.doTest wrapped none,
      Event.printMetricsTable,
      Event.dumpTrainedModelConfigs cfg.outputDir])

/-- An exception value raised by an entry point. -/
inductive PyError
  | err (msg : String)
deriving DecidableEq

/-- Diagnostic side effects of the failure interceptor. -/
inductive PMEvent
  | postMortem (e : PyError)
deriving DecidableEq

/-- Modelled from the spec: `post_mortem_if_fail_for_main` lives in
`d2go.setup`, which is not under `src/`; per the spec it wraps an entry
point so that an unhandled error drops into diagnostic post-mortem
inspection and then re-raises the original error, and it never applies
to an invocation that returns normally. The returned trace records
whether inspection ran. -/
def post_mortem_if_fail_for_main {α β : Type} (f : α → Except PyError β) :
    α → Except PyError β × List PMEvent :=
  fun a =>
    match f a with
    | Except.ok b => (Except.ok b, [])
    | Except.error e => (Except.error e, [PMEvent.postMortem e])

/-- The command-line argument fields `run_with_cmdline_args` reads. -/
structure CmdlineArgs where
  num_processes : Nat
  num_machines : Nat
  machine_rank : Nat
  dist_url : String
  dist_backend : String
  eval_only : Bool
  resume : Bool
deriving DecidableEq

/-- Modelled from the spec: `launch` (the Job Launcher, in
`d2go.distributed`, not under `src/`) spawns the worker group, runs the
entry point in every worker, and yields only the leader (rank 0) worker's
return value to the original caller; non-leader results are discarded at
the launch boundary. -/
def launch {α β : Type} (entryPoint : α → β)
    (_num_processes_per_machine _num_machines _machine_rank : Nat)
    (_dist_url _backend : String) (args : α) : β :=
  entryPoint args

/-- `run_with_cmdline_args(args)` from `tools/train_net.py`.
`prepare_for_launch` (config/arg resolution, out of the core per the
spec) is an injected collaborator producing `(cfg, output_dir, runner)`;
`localRank` stands for the worker
process identity that `main` observes. The Python function body calls
`launch(...)` as a bare statement and falls off the end, so the
embedding returns an `Option RunResult` whose value is `none`
(Python `None`). -/
def run_with_cmdline_args (prepare_for_launch : CmdlineArgs → Cfg × String × Runner)
    (localRank : Nat) (args : CmdlineArgs) : Option RunResult :=
  let pr := prepare_for_launch args
  let _ := launch
    (post_mortem_if_fail_for_main fun _ : Unit =>
      Except.ok (main pr.1 pr.2.1 pr.2.2 localRank args.eval_only args.resume))
    args.num_processes args.num_machines args.machine_rank
    args.dist_url args.dist_backend ()
  none

/-- A concrete configuration running on CPU. -/
def cfg0 : Cfg :=
  { modelWeights := "w.pth"
    modelDevice := "cpu"
    ddpFp16GradCompress := false
    ddpFindUnusedParameters := false
    outputDir := "out" }

/-- A concrete checkpointer with no existing checkpoint whose fresh load
carries no iteration entry. -/
def ckpt0 : Checkpointer :=
  { has_checkpoint := false
    resume_or_load := fun w _ =>
      { weightsReference := w, iteration := some 5, auxiliaryState := none }
    load := fun w =>
      { weightsReference := w, iteration := none, auxiliaryState := none } }

/-- A concrete runner whose training reports one trained sub-model. -/
def runner0 : Runner :=
  { build_model := fun _ => { modelId := 0, training := true }
    build_checkpointer := fun _ _ _ => ckpt0
    do_train := fun _ _ _ => [("model_final", "trained.yaml")]
    do_test := fun _ _ _ => [("AP", 50)] }

/-- Concrete command-line arguments. -/
def args0 : CmdlineArgs :=
  { num_processes := 2
    num_machines := 1
    machine_rank := 0
    dist_url := "tcp"
    dist_backend := "gloo"
    eval_only := false
    resume := false }

/-- A concrete `prepare_for_launch` collaborator. -/
def prepare0 : CmdlineArgs → Cfg × String × Runner :=
  fun _ => (cfg0, "out", runner0)

/-- C1: with `eval_only = true`, `main` never calls the runner's
`do_train`, and it calls `do_test` exactly once before returning. -/
theorem eval_only_never_trains_and_tests_once (cfg : Cfg) (od : String)
    (runner : Runner) (lr : Nat) (resume : Bool) :
    ((main cfg od runner lr true resume).2.countP Event.isDoTrain = 0) ∧
    ((main cfg od runner lr true resume).2.countP Event.isDoTest = 1) := by
  unfold main
  rw [if_pos rfl]
  dsimp only
  constructor <;> (split <;> simp [Event.isDoTrain, Event.isDoTest])

/-- C2: with `eval_only = false`, `main` calls `do_train` exactly once
and then `do_test` exactly once, both on the DDP-wrapped model, and the
`metrics` field of the returned dictionary is exactly the value `do_test`
returned. -/
theorem train_mode_trains_once_then_tests_once (cfg : Cfg) (od : String)
    (runner : Runner) (lr : Nat) (resume : Bool) :
    let wrapped := RModel.ddp (create_ddp_model (runner.build_model cfg)
      cfg.ddpFp16GradCompress
      (if cfg.modelDevice = "cpu" then none else some [lr]) false
      cfg.ddpFindUnusedParameters)
    ((main cfg od runner lr false resume).2.filter
        (fun e => e.isDoTrain || e.isDoTest) =
      [Event.doTrain wrapped resume, Event.doTest wrapped none]) ∧
    (main cfg od runner lr false resume).1.metrics =
      runner.do_test cfg wrapped none := by
  intro wrapped
  unfold main
  rw [if_neg (by simp)]
  dsimp only
  exact ⟨by simp [Event.isDoTrain, Event.isDoTest], rfl⟩

/-- C3: with `eval_only = true`, `main` issues
`resume_or_load(cfg.MODEL.WEIGHTS, resume)` if and only if `resume` is
true and the built checkpointer reports an existing checkpoint, and in
every other case it issues the plain `load(cfg.MODEL.WEIGHTS)` instead;
exactly one of the two happens. -/
theorem eval_only_resume_or_load_decision (cfg : Cfg) (od : String)
    (runner : Runner) (lr : Nat) (resume : Bool) :
    (main cfg od runner lr true resume).2.filter
        (fun e => e.isResumeOrLoad || e.isLoad) =
      (if resume &&
          (runner.build_checkpointer cfg (runner.build_model cfg) od).has_checkpoint
        then [Event.resumeOrLoad cfg.modelWeights resume]
        else [Event.load cfg.modelWeights]) := by
  unfold main
  rw [if_pos rfl]
  dsimp only
  split <;> rename_i h <;>
    simp only [h, if_true, if_false] <;>
    simp [Event.isResumeOrLoad, Event.isLoad]

/-- C5: with `eval_only = true`, `resume = true` and no existing
checkpoint, `main` performs the fresh `load(cfg.MODEL.WEIGHTS)` (and not
`resume_or_load`), and when the loaded record carries no iteration entry
the `train_iter` handed to the single `do_test` call is `None`. -/
theorem eval_only_no_checkpoint_fresh_load_none_iter (cfg : Cfg)
    (od : String) (runner : Runner) (lr : Nat)
    (hnc : (runner.build_checkpointer cfg (runner.build_model cfg) od).has_checkpoint
      = false)
    (hit : ((runner.build_checkpointer cfg (runner.build_model cfg) od).load
        cfg.modelWeights).iteration = none) :
    ((main cfg od runner lr true true).2.filter
        (fun e => e.isResumeOrLoad || e.isLoad) =
      [Event.load cfg.modelWeights]) ∧
    ((main cfg od runner lr true true).2.filter Event.isDoTest =
      [Event.doTest (RModel.plain (Model.eval (runner.build_model cfg))) none]) := by
  unfold main
  rw [if_pos rfl]
  dsimp only
  rw [if_neg (by simp [hnc])]
  constructor <;> simp [Event.isResumeOrLoad, Event.isLoad, Event.isDoTest, hit]

/-- C5 witness: a concrete runner whose checkpointer has no checkpoint
and whose fresh load records no iteration. -/
theorem eval_only_no_checkpoint_fresh_load_none_iter_witness :
    ((main cfg0 ("out") runner0 0 true true).2.filter
        (fun e => e.isResumeOrLoad || e.isLoad) =
      [Event.load cfg0.modelWeights]) ∧
    ((main cfg0 ("out") runner0 0 true true).2.filter Event.isDoTest =
      [Event.doTest (RModel.plain (Model.eval (runner0.build_model cfg0))) none]) :=
  eval_only_no_checkpoint_fresh_load_none_iter cfg0 ("out") runner0 0 rfl rfl

/-- C6: with `eval_only = false`, the `model_configs` field of the
returned dictionary is exactly the mapping produced by dumping the
trained sub-model configs reported by `do_train` to the configured
output directory, and it is non-empty whenever `do_train` reports at
least one trained sub-model. -/
theorem train_model_configs_from_dump (cfg : Cfg) (od : String)
    (runner : Runner) (lr : Nat) (resume : Bool) :
    let wrapped := RModel.ddp (create_ddp_model (runner.build_model cfg)
      cfg.ddpFp16GradCompress
      (if cfg.modelDevice = "cpu" then none else some [lr]) false
      cfg.ddpFindUnusedParameters)
    ((main cfg od runner lr false resume).1.model_configs =
      dump_trained_model_configs cfg.outputDir
        (runner.do_train cfg wrapped resume)) ∧
    (runner.do_train cfg wrapped resume ≠ [] →
      (main cfg od runner lr false resume).1.model_configs ≠ []) := by
  intro wrapped
  refine ⟨?_, ?_⟩
  · unfold main
    rw [if_neg (by simp)]
  · intro h
    unfold main
    rw [if_neg (by simp)]
    dsimp only
    simpa [dump_trained_model_configs, List.map_eq_nil_iff] using h

/-- C6 witness: a concrete runner reporting one trained sub-model yields
a non-empty `model_configs` mapping. -/
theorem train_model_configs_from_dump_witness :
    (main cfg0 ("out") runner0 0 false true).1.model_configs ≠ [] :=
  (train_model_configs_from_dump cfg0 ("out") runner0 0 true).2 (by decide)

/-- C7: in the training path, the `device_ids` argument `main` passes to
`create_ddp_model` is `None` exactly when `cfg.MODEL.DEVICE` is `"cpu"`,
and otherwise it is the singleton list holding the local rank. -/
theorem ddp_device_ids_cpu_decision (cfg : Cfg) (od : String)
    (runner : Runner) (lr : Nat) (resume : Bool) :
    (cfg.modelDevice = "cpu" →
      (main cfg od runner lr false resume).2.filter Event.isCreateDdpModel =
        [Event.createDdpModel cfg.ddpFp16GradCompress none false
          cfg.ddpFindUnusedParameters]) ∧
    (cfg.modelDevice ≠ "cpu" →
      (main cfg od runner lr false resume).2.filter Event.isCreateDdpModel =
        [Event.createDdpModel cfg.ddpFp16GradCompress (some [lr]) false
          cfg.ddpFindUnusedParameters]) := by
  constructor <;> intro h <;>
    (unfold main; rw [if_neg (by simp)]; dsimp only;
     simp [Event.isCreateDdpModel, h])

/-- C7 witness: on the concrete CPU configuration, `device_ids = none` is
passed. -/
theorem ddp_device_ids_cpu_decision_witness :
    (main cfg0 ("out") runner0 0 false true).2.filter Event.isCreateDdpModel =
      [Event.createDdpModel cfg0.ddpFp16GradCompress none false
        cfg0.ddpFindUnusedParameters] :=
  (ddp_device_ids_cpu_decision cfg0 ("out") runner0 0 true).1 rfl

/-- C8: the installed failure interceptor re-raises an entry point's
unhandled error after triggering diagnostic inspection (never swallowing
it), and passes through a normal return untouched with no inspection. -/
theorem post_mortem_reraises_and_passes_through {α β : Type}
    (f : α → Except PyError β) (a : α) :
    (∀ e, f a = Except.error e →
      post_mortem_if_fail_for_main f a =
        (Except.error e, [PMEvent.postMortem e])) ∧
    (∀ b, f a = Except.ok b →
      post_mortem_if_fail_for_main f a = (Except.ok b, [])) := by
  constructor <;> intro x h <;> simp [post_mortem_if_fail_for_main, h]

/-- C8 witness: a failing entry point has its error re-raised after
inspection. -/
theorem post_mortem_reraises_and_passes_through_witness :
    post_mortem_if_fail_for_main
        (fun _ : Unit => (Except.error (PyError.err ("boom")) : Except PyError Nat)) () =
      (Except.error (PyError.err ("boom")), [PMEvent.postMortem (PyError.err ("boom"))]) :=
  (post_mortem_reraises_and_passes_through
    (fun _ : Unit => (Except.error (PyError.err ("boom")) : Except PyError Nat)) ()).1
    (PyError.err ("boom")) rfl

/-- C4 counterexample: at a concrete configuration,
`run_with_cmdline_args` does not return the leader worker's `RunResult`;
it returns `none` (Python `None`). -/
theorem run_with_cmdline_args_not_leader_result :
    run_with_cmdline_args prepare0 0 args0 ≠
      some (main (prepare0 args0).1 (prepare0 args0).2.1 (prepare0 args0).2.2 0
        args0.eval_only args0.resume).1 := by
  decide

/-- C4 amended: `run_with_cmdline_args` invokes `launch`, whose value is
the leader worker's run of the wrapped `main`, but it discards that value
and returns `None` to its caller. -/
theorem run_with_cmdline_args_discards_launch_result
    (prepare : CmdlineArgs → Cfg × String × Runner) (lr : Nat)
    (args : CmdlineArgs) :
    run_with_cmdline_args prepare lr args = none ∧
    launch
        (post_mortem_if_fail_for_main fun _ : Unit =>
          Except.ok (main (prepare args).1 (prepare args).2.1 (prepare args).2.2
            lr args.eval_only args.resume))
        args.num_processes args.num_machines args.machine_rank
        args.dist_url args.dist_backend () =
      (Except.ok (main (prepare args).1 (prepare args).2.1 (prepare args).2.2
        lr args.eval_only args.resume), []) :=
  ⟨rfl, rfl⟩

/-- C9: with `eval_only = true`, the `model_configs` field of the
returned dictionary is always the empty mapping, regardless of
checkpoint state, resume flag, or what `do_test` returns. -/
theorem eval_only_model_configs_empty (cfg : Cfg) (od : String)
    (runner : Runner) (lr : Nat) (resume : Bool) :
    (main cfg od runner lr true resume).1.model_configs = [] := by
  unfold main
  rw [if_pos rfl]

/-- C10: in every dictionary returned by `main` — eval-only path and
train path alike — the `accuracy` field and the `metrics` field are the
same value, namely the output of the single `do_test` call: the trace
holds exactly one `do_test` event, whose model and `train_iter` arguments
determine that shared value as the runner's `do_test` output. -/
theorem accuracy_and_metrics_are_do_test_output (cfg : Cfg) (od : String)
    (runner : Runner) (lr : Nat) (eo : Bool) (resume : Bool) :
    let model := runner.build_model cfg
    let checkpointer := runner.build_checkpointer cfg model od
    let train_iter :=
      if resume && checkpointer.has_checkpoint
        then (checkpointer.resume_or_load cfg.modelWeights resume).iteration
        else (checkpointer.load cfg.modelWeights).iteration
    let wrapped := RModel.ddp (create_ddp_model model cfg.ddpFp16GradCompress
      (if cfg.modelDevice = "cpu" then none else some [lr]) false
      cfg.ddpFindUnusedParameters)
    let dt :=
      if eo then runner.do_test cfg (RModel.plain (Model.eval model)) train_iter
      else runner.do_test cfg wrapped none
    ((main cfg od runner lr eo resume).2.filter Event.isDoTest =
      [if eo then Event.doTest (RModel.plain (Model.eval model)) train_iter
       else Event.doTest wrapped none]) ∧
    (main cfg od runner lr eo resume).1.accuracy = dt ∧
    (main cfg od runner lr eo resume).1.metrics = dt := by
  dsimp only
  cases eo
  · unfold main
    simp only [reduceIte]
    exact ⟨by simp [Event.isDoTest], rfl, rfl⟩
  · unfold main
    simp only [reduceIte]
    split <;> exact ⟨by simp [Event.isDoTest], rfl, rfl⟩

end TrainNet
